import Mathlib

/-!
Verification development for `process_results.py` (hey load-test CSV → Excel report).

The Python program is embedded shallowly:
* floats become `ℚ` (exact arithmetic stands in for IEEE doubles),
* a CSV file becomes a header line plus a list of raw field rows,
* `csv.DictReader` row access becomes `dictGet` (column lookup by name at
  the last occurrence of the name, short rows padded with `None`, i.e.
  `Option.none`), and its blank-row skip becomes the guard in `readRows`,
* Python exceptions become the `PyError` type; `sys.exit(1)` paths and the
  uncaught-exception path are distinguished in `Outcome`,
* the spreadsheet library calls become a pure `Workbook` value plus a single
  write event; the observable behaviour of `main` (printed lines, filesystem
  events, exit) is collected in `RunResult`.
-/

namespace ProcessResults

/-- Python exceptions that can arise inside `read_csv_data`:
`KeyError` (missing dict key, carries the key), `ValueError` (bad `float()`
input, carries the raw string), `TypeError` (`float(None)`). -/
inductive PyError where
  | keyError (key : String)
  | valueError (raw : String)
  | typeError
deriving DecidableEq

/-- One parsed row of the input CSV, as built at lines 28-33 of
`process_results.py`.  `timestamp` is `Option String` because a short CSV row
leaves trailing columns as Python `None` (the `restval` of `csv.DictReader`). -/
structure Sample where
  timestamp : Option String
  avg_response_time : ℚ
  p95_response_time : ℚ
  requests_per_second : ℚ
deriving DecidableEq

abbrev Dataset := List Sample

/-- A CSV file after line/field splitting: the header row and the data rows.
(`csv.DictReader` takes the first line as field names.) -/
structure CSVFile where
  header : List String
  rows : List (List String)
deriving DecidableEq

/-! ### Python `float()` on decimal literals -/

/-- Leading sign of a numeric literal; `true` means negative. -/
def parseSign : List Char → Bool × List Char
  | '-' :: cs => (true, cs)
  | '+' :: cs => (false, cs)
  | cs => (false, cs)

/-- Split at the first character satisfying `p`: the part before it and,
when a separator occurs, the part after it. -/
def breakAt (p : Char → Bool) : List Char → List Char × Option (List Char)
  | [] => ([], none)
  | c :: rest =>
    if p c then ([], some rest)
    else
      let r := breakAt p rest
      (c :: r.1, r.2)

def allDigits (cs : List Char) : Bool := cs.all Char.isDigit

def natOfDigits (cs : List Char) : Nat :=
  cs.foldl (fun a c => 10 * a + (c.toNat - 48)) 0

/-- Unsigned decimal mantissa `digits[.digits]`, needing at least one digit
(Python accepts `1.`, `.5`, `1.5`, rejects `.` and the empty string). -/
def parseUDec (cs : List Char) : Option ℚ :=
  match breakAt (fun c => c = '.') cs with
  | (ip, none) =>
    if ip ≠ [] ∧ allDigits ip then some (natOfDigits ip : ℚ) else none
  | (ip, some fp) =>
    if (ip ≠ [] ∨ fp ≠ []) ∧ allDigits ip ∧ allDigits fp then
      some ((natOfDigits ip : ℚ) + (natOfDigits fp : ℚ) / (10 : ℚ) ^ fp.length)
    else none

/-- Exponent part after `e`/`E`: optional sign, then digits. -/
def parseExp (cs : List Char) : Option ℤ :=
  let sr := parseSign cs
  if sr.2 ≠ [] ∧ allDigits sr.2 then
    some (if sr.1 then -(natOfDigits sr.2 : ℤ) else (natOfDigits sr.2 : ℤ))
  else none

def isSpaceChar (c : Char) : Bool := c = ' ' ∨ c = '\t' ∨ c = '\n' ∨ c = '\r'

/-- Strip leading and trailing whitespace (Python `float()` ignores it). -/
def stripSpaces (cs : List Char) : List Char :=
  ((cs.dropWhile isSpaceChar).reverse.dropWhile isSpaceChar).reverse

/-- Apply a decimal exponent to a rational. -/
def applyExp (m : ℚ) (e : ℤ) : ℚ :=
  if 0 ≤ e then m * (10 : ℚ) ^ e.toNat else m / (10 : ℚ) ^ (-e).toNat

/-- Model of Python `float(s)` on finite decimal literals with an optional
exponent.  (Special spellings — `inf`, `nan`, hex, digit underscores — are not
modelled; inputs outside the decimal grammar are rejected, matching the
`ValueError` branch.)  Returns `none` exactly when `float()` raises
`ValueError`. -/
def pyFloat (s : String) : Option ℚ :=
  let cs := stripSpaces s.data
  let sgn := parseSign cs
  match breakAt (fun c => c = 'e' ∨ c = 'E') sgn.2 with
  | (mant, none) =>
    (parseUDec mant).map (fun q => if sgn.1 then -q else q)
  | (mant, some ex) =>
    match parseUDec mant, parseExp ex with
    | some m, some e => some (if sgn.1 then -(applyExp m e) else applyExp m e)
    | _, _ => none

/-! ### The Reader (`read_csv_data`, lines 21-44) -/

/-- Index of the field that `row[key]` sees on a `csv.DictReader` row.
`dict(zip(fieldnames, row))` keeps the value of the LAST occurrence of a
duplicated name, and the short-row padding loop (`for key in fieldnames[lr:]:
d[key] = restval`) runs after the zip, so it also overwrites a duplicated
name whose last occurrence lies past the end of the row; the dict therefore
holds `row[j]` when the last occurrence `j` of the name fits the row, and
`None` otherwise.  `headerIdx` returns that last-occurrence index, and
`none` exactly when the key is absent from the header (`KeyError`). -/
def headerIdx (header : List String) (key : String) : Option Nat :=
  match header.reverse.findIdx? (fun h => h == key) with
  | none => none
  | some j => some (header.length - 1 - j)

/-- `row[key]` on a `csv.DictReader` row: `KeyError` when the header lacks the
column, otherwise the field of the row at that column — `none` (Python `None`) when
the data row is shorter than the header (`restval`). -/
def dictGet (header fields : List String) (key : String) :
    Except PyError (Option String) :=
  match headerIdx header key with
  | none => .error (.keyError key)
  | some i => .ok fields[i]?

/-- `float(v)` on a cell taken from a `DictReader` row: `TypeError` on
`None`, `ValueError` (carrying the raw string) on a non-numeric string. -/
def toFloat (v : Except PyError (Option String)) : Except PyError ℚ :=
  match v with
  | .error e => .error e
  | .ok none => .error .typeError
  | .ok (some s) =>
    match pyFloat s with
    | none => .error (.valueError s)
    | some q => .ok q

/-- Build one `Sample` from a raw CSV row, evaluating the four dict accesses
in the order of the dict literal at lines 28-33: `timestamp`, then
`float(avg)`, `float(p95)`, `float(rps)`; the first failure wins. -/
def readRow (header fields : List String) : Except PyError Sample :=
  match dictGet header fields "timestamp" with
  | .error e => .error e
  | .ok t =>
    match toFloat (dictGet header fields "avg_response_time") with
    | .error e => .error e
    | .ok a =>
      match toFloat (dictGet header fields "p95_response_time") with
      | .error e => .error e
      | .ok p =>
        match toFloat (dictGet header fields "requests_per_second") with
        | .error e => .error e
        | .ok r =>
          .ok { timestamp := t, avg_response_time := a,
                p95_response_time := p, requests_per_second := r }

/-- The `for row in reader: data.append(...)` loop: rows in order, first
error aborts.  `csv.DictReader` skips blank rows before building the row
dict (`while row == []: row = next(self.reader)`), so an empty field row
contributes no sample. -/
def readRows (header : List String) : List (List String) → Except PyError Dataset
  | [] => .ok []
  | r :: rs =>
    if r = [] then readRows header rs
    else
      match readRow header r with
      | .error e => .error e
      | .ok s =>
        match readRows header rs with
        | .error e => .error e
        | .ok ds => .ok (s :: ds)

/-- `read_csv_data` without the I/O wrapper: parse all rows of an opened CSV.
The exception handlers and `sys.exit(1)` calls of lines 35-44 live in
`pyMain` below. -/
def read_csv_data (csv : CSVFile) : Except PyError Dataset :=
  readRows csv.header csv.rows

/-! ### The Aggregator (`calculate_statistics`, lines 47-69) -/

/-- Python `min` over a list (guarded: the `[]` case is unreachable because
`calculate_statistics` returns early on empty data). -/
def pyMin : List ℚ → ℚ
  | [] => 0
  | x :: xs => xs.foldl min x

/-- Python `max` over a list (same guard as `pyMin`). -/
def pyMax : List ℚ → ℚ
  | [] => 0
  | x :: xs => xs.foldl max x

/-- The `stats` dictionary of lines 56-67, with its keys as fields. -/
structure Statistics where
  total_samples : Nat
  avg_response_time_mean : ℚ
  avg_response_time_min : ℚ
  avg_response_time_max : ℚ
  p95_response_time_mean : ℚ
  p95_response_time_min : ℚ
  p95_response_time_max : ℚ
  rps_mean : ℚ
  rps_min : ℚ
  rps_max : ℚ
deriving DecidableEq

/-- `calculate_statistics` (lines 47-69): `{}` on empty data becomes `none`;
otherwise mean = sum/len, min, max of each of the three series. -/
def calculate_statistics (data : Dataset) : Option Statistics :=
  match data with
  | [] => none
  | _ :: _ =>
    let avg_times := data.map (·.avg_response_time)
    let p95_times := data.map (·.p95_response_time)
    let rps_values := data.map (·.requests_per_second)
    some {
      total_samples := data.length
      avg_response_time_mean := avg_times.sum / (avg_times.length : ℚ)
      avg_response_time_min := pyMin avg_times
      avg_response_time_max := pyMax avg_times
      p95_response_time_mean := p95_times.sum / (p95_times.length : ℚ)
      p95_response_time_min := pyMin p95_times
      p95_response_time_max := pyMax p95_times
      rps_mean := rps_values.sum / (rps_values.length : ℚ)
      rps_min := pyMin rps_values
      rps_max := pyMax rps_values }

/-! ### The Reporter (`create_excel_with_charts`, lines 72-190) -/

/-- A spreadsheet cell value as written by the program: a string, a Python
`int` (`total_samples`), or a float. -/
inductive Cell where
  | str (s : String)
  | int (n : Nat)
  | num (q : ℚ)
deriving DecidableEq

/-- An `openpyxl.chart.Reference` as used here: one column, a row range. -/
structure ChartRef where
  minCol : Nat
  minRow : Nat
  maxRow : Nat
deriving DecidableEq

/-- The logical content of one `LineChart` (titles, data references, anchor;
purely visual attributes such as `style`/`height`/`width` are presentation
details outside the contract). -/
structure Chart where
  title : String
  yAxisTitle : String
  xAxisTitle : String
  series : List ChartRef
  categories : ChartRef
  anchor : String
deriving DecidableEq

/-- The logical content of the workbook: the three sheets in order
Data, Statistics, Charts. -/
structure Workbook where
  dataHeader : List String
  dataRows : List (Option String × ℚ × ℚ × ℚ)
  statsHeader : List String
  statsRows : List (String × Cell)
  charts : List Chart
deriving DecidableEq

/-- Round to the nearest integer, ties to even — Python `round`. -/
def roundHalfEven (q : ℚ) : ℤ :=
  let f := q.floor
  let r := q - (f : ℚ)
  if r < 1/2 then f
  else if 1/2 < r then f + 1
  else if f % 2 = 0 then f else f + 1

/-- Python `round(q, 4)`. -/
def round4 (q : ℚ) : ℚ := (roundHalfEven (q * 10000) : ℚ) / 10000

/-- The `stats_rows` list literal of lines 111-128, before the write loop. -/
def stats_rows (stats : Statistics) : List (String × Cell) :=
  [("Total Samples", .int stats.total_samples),
   ("", .str ""),
   ("Average Response Time (s)", .str ""),
   ("  Mean", .num stats.avg_response_time_mean),
   ("  Min", .num stats.avg_response_time_min),
   ("  Max", .num stats.avg_response_time_max),
   ("", .str ""),
   ("P95 Response Time (s)", .str ""),
   ("  Mean", .num stats.p95_response_time_mean),
   ("  Min", .num stats.p95_response_time_min),
   ("  Max", .num stats.p95_response_time_max),
   ("", .str ""),
   ("Requests per Second", .str ""),
   ("  Mean", .num stats.rps_mean),
   ("  Min", .num stats.rps_min),
   ("  Max", .num stats.rps_max)]

/-- The write loop of lines 130-135: `isinstance(value, (int, float))` values
get `round(value, 4)` (an `int` is unchanged by rounding), strings are
written as they are. -/
def writeStatsValue : Cell → Cell
  | .int n => .int n
  | .num q => .num (round4 q)
  | .str s => .str s

/-- `Reference(ws_data, min_col=c, min_row=1, max_row=len(data)+1)`. -/
def seriesRef (c : Nat) (data : Dataset) : ChartRef :=
  { minCol := c, minRow := 1, maxRow := data.length + 1 }

/-- Chart 1 of lines 144-163: response-time series from columns 2 and 3. -/
def chart1 (data : Dataset) : Chart :=
  { title := "Response Times Over Time"
    yAxisTitle := "Response Time (seconds)"
    xAxisTitle := "Sample"
    series := [seriesRef 2 data, seriesRef 3 data]
    categories := { minCol := 1, minRow := 2, maxRow := data.length + 1 }
    anchor := "A1" }

/-- Chart 2 of lines 166-179: the requests-per-second series, column 4. -/
def chart2 (data : Dataset) : Chart :=
  { title := "Requests per Second Over Time"
    yAxisTitle := "Requests/Second"
    xAxisTitle := "Sample"
    series := [seriesRef 4 data]
    categories := { minCol := 1, minRow := 2, maxRow := data.length + 1 }
    anchor := "A25" }

/-- The pure part of `create_excel_with_charts` (lines 72-179): assemble the
three sheets.  The `wb.save` call and its `PermissionError` handler
(lines 182-190) are modelled in `pyMain` as the single write event. -/
def create_excel_workbook (data : Dataset) (stats : Statistics) : Workbook :=
  { dataHeader := ["Timestamp", "Avg Response Time (s)",
                   "P95 Response Time (s)", "Requests/Second"]
    dataRows := data.map (fun r =>
      (r.timestamp, r.avg_response_time, r.p95_response_time,
       r.requests_per_second))
    statsHeader := ["Metric", "Value"]
    statsRows := (stats_rows stats).map (fun mv => (mv.1, writeStatsValue mv.2))
    charts := [chart1 data, chart2 data] }

/-! ### The driver (`main`, lines 193-223) -/

/-- A single-quote character, for the quoting in Python error messages. -/
def sq : String := String.singleton (Char.ofNat 39)

def fileNotFoundMsg (p : String) : String :=
  "Error: File " ++ sq ++ p ++ sq ++ " not found."

def missingColumnMsg (c : String) : String :=
  "Error: Missing expected column " ++ sq ++ c ++ sq ++ " in CSV file."

def expectedColumnsMsg : String :=
  "Expected columns: timestamp,avg_response_time,p95_response_time,requests_per_second"

def invalidNumericMsg (raw : String) : String :=
  "Error: Invalid numeric value in CSV file: could not convert string to float: "
    ++ sq ++ raw ++ sq

def emptyDataMsg : String := "Error: No data found in CSV file."

def permissionMsg (p : String) : String :=
  "Error: Cannot write to " ++ sq ++ p ++ sq
    ++ ". File may be open in another program."

/-- The three lines printed on wrong argument count (lines 196-198). -/
def usagePrinted : List String :=
  ["Usage: python process_results.py input.csv output.xlsx",
   "\nExpected CSV format:",
   "timestamp,avg_response_time,p95_response_time,requests_per_second"]

/-- `s.endswith(suffix)`, over the underlying character lists. -/
def strEndsWith (s suffix : String) : Bool :=
  suffix.data.isSuffixOf s.data

/-- Lines 204-205: append `.xlsx` when the output path lacks it. -/
def normalizeOutput (p : String) : String :=
  if strEndsWith p ".xlsx" then p else p ++ ".xlsx"

/-- Render a rational with exactly `prec` digits after the decimal point
(the fixed-point formatting that Python f-strings use, ties to even). -/
def formatFixed (q : ℚ) (prec : Nat) : String :=
  let scaled := roundHalfEven (q * ((10 : ℚ) ^ prec))
  let sign := if scaled < 0 then "-" else ""
  let n := scaled.natAbs
  let base := 10 ^ prec
  let fracStr := toString (n % base)
  sign ++ toString (n / base) ++ "."
    ++ String.mk (List.replicate (prec - fracStr.length) '0') ++ fracStr

/-- The success prints of lines 184-187. -/
def successMsgs (out : String) (n : Nat) : List String :=
  ["Successfully created Excel file: " ++ out,
   "  - Data sheet with " ++ toString n ++ " samples",
   "  - Statistics sheet with summary metrics",
   "  - Charts sheet with visualizations"]

/-- The summary prints of lines 220-223. -/
def summaryMsgs (stats : Statistics) : List String :=
  ["\nSummary Statistics:",
   "  Average Response Time: " ++ formatFixed stats.avg_response_time_mean 4 ++ "s",
   "  P95 Response Time: " ++ formatFixed stats.p95_response_time_mean 4 ++ "s",
   "  Average RPS: " ++ formatFixed stats.rps_mean 2]

/-- Which exit path a run took — the error taxonomy of spec section 7 plus
`pyCrash` for an exception no handler catches.  This is a summary of the
branch taken, recorded alongside the observable behaviour. -/
inductive ErrKind where
  | usage
  | inputNotFound
  | missingColumn (c : String)
  | invalidNumeric (raw : String)
  | emptyDataset
  | outputWrite
  | pyCrash (e : PyError)
deriving DecidableEq

/-- Filesystem touches made by a run: opening the input for reading, and the
`wb.save` attempt on the output. -/
inductive Event where
  | readF (path : String)
  | writeF (path : String) (wb : Workbook)
deriving DecidableEq

def isWriteEvent : Event → Bool
  | .writeF _ _ => true
  | .readF _ => false

/-- How the process ended: `sys.exit`/normal return with a code, or an
uncaught exception (non-zero exit with a traceback). -/
inductive Outcome where
  | exited (code : Nat)
  | crashed (e : PyError)
deriving DecidableEq

/-- Observable behaviour of one program run. -/
structure RunResult where
  printed : List String
  events : List Event
  outcome : Outcome
  err : Option ErrKind
deriving DecidableEq

/-- `main` (lines 193-223) over an explicit world: `argv` includes the script
name (so "exactly two positional arguments" is `argv.length = 3`), `fs` maps
a path to the CSV file it holds (`none` = `FileNotFoundError`), and
`writable` tells whether `wb.save` succeeds (`false` = `PermissionError`). -/
def pyMain (argv : List String) (fs : String → Option CSVFile)
    (writable : String → Bool) : RunResult :=
  if argv.length ≠ 3 then
    { printed := usagePrinted, events := [], outcome := .exited 1,
      err := some .usage }
  else
    let input_file := argv.getD 1 ""
    let output_file := normalizeOutput (argv.getD 2 "")
    let pr0 := ["Reading data from: " ++ input_file]
    match fs input_file with
    | none =>
      { printed := pr0 ++ [fileNotFoundMsg input_file],
        events := [.readF input_file], outcome := .exited 1,
        err := some .inputNotFound }
    | some csv =>
      match read_csv_data csv with
      | .error (.keyError c) =>
        { printed := pr0 ++ [missingColumnMsg c, expectedColumnsMsg],
          events := [.readF input_file], outcome := .exited 1,
          err := some (.missingColumn c) }
      | .error (.valueError raw) =>
        { printed := pr0 ++ [invalidNumericMsg raw],
          events := [.readF input_file], outcome := .exited 1,
          err := some (.invalidNumeric raw) }
      | .error .typeError =>
        { printed := pr0, events := [.readF input_file],
          outcome := .crashed .typeError,
          err := some (.pyCrash .typeError) }
      | .ok data =>
        if data.isEmpty then
          { printed := pr0 ++ [emptyDataMsg],
            events := [.readF input_file], outcome := .exited 1,
            err := some .emptyDataset }
        else
        match calculate_statistics data with
        | none =>
          -- unreachable for non-empty data; in Python a `{}` here would make
          -- `create_excel_with_charts` crash looking up the total_samples key
          { printed := pr0 ++ ["Processing " ++ toString data.length
                                 ++ " samples...",
                               "Generating Excel file: " ++ output_file],
            events := [.readF input_file],
            outcome := .crashed (.keyError "total_samples"),
            err := some (.pyCrash (.keyError "total_samples")) }
        | some stats =>
          let wb := create_excel_workbook data stats
          let pr1 := pr0 ++ ["Processing " ++ toString data.length
                               ++ " samples...",
                             "Generating Excel file: " ++ output_file]
          if writable output_file then
            { printed := pr1 ++ successMsgs output_file data.length
                             ++ summaryMsgs stats,
              events := [.readF input_file, .writeF output_file wb],
              outcome := .exited 0, err := none }
          else
            { printed := pr1 ++ [permissionMsg output_file],
              events := [.readF input_file, .writeF output_file wb],
              outcome := .exited 1, err := some .outputWrite }

/-! ### Spec-side definitions and concrete fixtures -/

/-- The four required column names, in the access order of lines 29-32. -/
def requiredColumns : List String :=
  ["timestamp", "avg_response_time", "p95_response_time", "requests_per_second"]

/-- The three numeric columns, in access order. -/
def numericColumns : List String :=
  ["avg_response_time", "p95_response_time", "requests_per_second"]

/-- Column `c` is present in the header and its field in `fields` is a string
that `float()` accepts. -/
def fieldParses (header fields : List String) (c : String) : Prop :=
  ∃ i s q, headerIdx header c = some i ∧ fields[i]? = some s ∧
    pyFloat s = some q

/-- Column `c` is present in the header but the data row is too short to have
a field for it, so the `DictReader` row carries `None` there. -/
def missingAt (header fields : List String) (c : String) : Prop :=
  ∃ i, headerIdx header c = some i ∧ fields[i]? = none

/-- The data rows that `csv.DictReader` actually delivers: the raw field
rows with blank rows (`[]`) skipped. -/
def nonBlankRows : List (List String) → List (List String)
  | [] => []
  | r :: rs => if r = [] then nonBlankRows rs else r :: nonBlankRows rs

/-- Read the Data sheet back into a Dataset (the round-trip direction of the
round-trip testable property of the spec; inverse of the write at
lines 92-96). -/
def readBackDataSheet (rows : List (Option String × ℚ × ℚ × ℚ)) : Dataset :=
  rows.map (fun r =>
    { timestamp := r.1, avg_response_time := r.2.1,
      p95_response_time := r.2.2.1, requests_per_second := r.2.2.2 })

/-- The end-to-end example rows of the spec, `("t1",0.10,0.20,50.0)`,
`("t2",0.30,0.40,70.0)` as a Dataset. -/
def exDataRows : Dataset :=
  [{ timestamp := some "t1", avg_response_time := 1/10,
     p95_response_time := 1/5, requests_per_second := 50 },
   { timestamp := some "t2", avg_response_time := 3/10,
     p95_response_time := 2/5, requests_per_second := 70 }]

/-- The statistics the end-to-end example claims for `exDataRows`. -/
def exStats : Statistics :=
  { total_samples := 2
    avg_response_time_mean := 1/5, avg_response_time_min := 1/10,
    avg_response_time_max := 3/10
    p95_response_time_mean := 3/10, p95_response_time_min := 1/5,
    p95_response_time_max := 2/5
    rps_mean := 60, rps_min := 50, rps_max := 70 }

/-- A single-sample Dataset, for the N=1 corner of claim C4. -/
def exDataOne : Dataset :=
  [{ timestamp := some "t1", avg_response_time := 1/10,
     p95_response_time := 1/5, requests_per_second := 50 }]

def hdr4 : List String :=
  ["timestamp", "avg_response_time", "p95_response_time", "requests_per_second"]

/-- A CSV with the full header and no data rows. -/
def csvHdrOnly : CSVFile := ⟨hdr4, []⟩

/-- A CSV with the full header and one short data row (only a timestamp). -/
def csvShortRow : CSVFile := ⟨hdr4, [["t1"]]⟩

/-- A CSV whose header lacks `requests_per_second`, with one data row whose
present numeric fields parse. -/
def csvNoRps : CSVFile :=
  ⟨["timestamp", "avg_response_time", "p95_response_time"],
   [["t1", "1.5", "2.5"]]⟩

/-- A CSV whose header lacks `timestamp` and which has no data rows. -/
def csvNoTsNoRows : CSVFile :=
  ⟨["avg_response_time", "p95_response_time", "requests_per_second"], []⟩

/-- A one-file filesystem: `in.csv` holds the given CSV. -/
def fsWith (csv : CSVFile) : String → Option CSVFile :=
  fun p => if p = "in.csv" then some csv else none

def alwaysWritable : String → Bool := fun _ => true

/-! ### Helper lemmas -/

theorem foldl_min_le_init (xs : List ℚ) : ∀ x : ℚ, xs.foldl min x ≤ x := by
  induction xs with
  | nil => intro x; exact le_refl x
  | cons a t ih =>
    intro x
    exact le_trans (ih (min x a)) (min_le_left x a)

theorem foldl_min_le_mem (xs : List ℚ) :
    ∀ x y : ℚ, y ∈ xs → xs.foldl min x ≤ y := by
  induction xs with
  | nil => intro x y hy; cases hy
  | cons a t ih =>
    intro x y hy
    rcases List.mem_cons.mp hy with rfl | hy
    · exact le_trans (foldl_min_le_init t (min x y)) (min_le_right x y)
    · exact ih (min x a) y hy

theorem foldl_min_mem (xs : List ℚ) :
    ∀ x : ℚ, xs.foldl min x = x ∨ xs.foldl min x ∈ xs := by
  induction xs with
  | nil => intro x; exact Or.inl rfl
  | cons a t ih =>
    intro x
    rcases ih (min x a) with h | h
    · rcases min_choice x a with hxa | hxa
      · exact Or.inl (by rw [List.foldl_cons, h, hxa])
      · exact Or.inr (by rw [List.foldl_cons, h, hxa]; exact List.mem_cons_self a t)
    · exact Or.inr (List.mem_cons_of_mem a h)

theorem foldl_max_init_le (xs : List ℚ) : ∀ x : ℚ, x ≤ xs.foldl max x := by
  induction xs with
  | nil => intro x; exact le_refl x
  | cons a t ih =>
    intro x
    exact le_trans (le_max_left x a) (ih (max x a))

theorem foldl_max_mem_le (xs : List ℚ) :
    ∀ x y : ℚ, y ∈ xs → y ≤ xs.foldl max x := by
  induction xs with
  | nil => intro x y hy; cases hy
  | cons a t ih =>
    intro x y hy
    rcases List.mem_cons.mp hy with rfl | hy
    · exact le_trans (le_max_right x y) (foldl_max_init_le t (max x y))
    · exact ih (max x a) y hy

theorem foldl_max_mem (xs : List ℚ) :
    ∀ x : ℚ, xs.foldl max x = x ∨ xs.foldl max x ∈ xs := by
  induction xs with
  | nil => intro x; exact Or.inl rfl
  | cons a t ih =>
    intro x
    rcases ih (max x a) with h | h
    · rcases max_choice x a with hxa | hxa
      · exact Or.inl (by rw [List.foldl_cons, h, hxa])
      · exact Or.inr (by rw [List.foldl_cons, h, hxa]; exact List.mem_cons_self a t)
    · exact Or.inr (List.mem_cons_of_mem a h)

theorem pyMin_mem (l : List ℚ) (h : l ≠ []) : pyMin l ∈ l := by
  cases l with
  | nil => exact absurd rfl h
  | cons x xs =>
    rcases foldl_min_mem xs x with h1 | h1
    · show xs.foldl min x ∈ x :: xs
      rw [h1]; exact List.mem_cons_self x xs
    · exact List.mem_cons_of_mem x h1

theorem pyMin_le (l : List ℚ) (y : ℚ) (hy : y ∈ l) : pyMin l ≤ y := by
  cases l with
  | nil => cases hy
  | cons x xs =>
    rcases List.mem_cons.mp hy with rfl | hy
    · exact foldl_min_le_init xs y
    · exact foldl_min_le_mem xs x y hy

theorem pyMax_mem (l : List ℚ) (h : l ≠ []) : pyMax l ∈ l := by
  cases l with
  | nil => exact absurd rfl h
  | cons x xs =>
    rcases foldl_max_mem xs x with h1 | h1
    · show xs.foldl max x ∈ x :: xs
      rw [h1]; exact List.mem_cons_self x xs
    · exact List.mem_cons_of_mem x h1

theorem le_pyMax (l : List ℚ) (y : ℚ) (hy : y ∈ l) : y ≤ pyMax l := by
  cases l with
  | nil => cases hy
  | cons x xs =>
    rcases List.mem_cons.mp hy with rfl | hy
    · exact foldl_max_init_le xs y
    · exact foldl_max_mem_le xs x y hy

theorem mul_length_le_sum (l : List ℚ) (m : ℚ) (h : ∀ x ∈ l, m ≤ x) :
    m * l.length ≤ l.sum := by
  induction l with
  | nil => simp
  | cons a t ih =>
    have ha := h a (List.mem_cons_self a t)
    have ht := ih (fun x hx => h x (List.mem_cons_of_mem a hx))
    have hexp : m * ((a :: t).length : ℚ) = m * (t.length : ℚ) + m := by
      push_cast [List.length_cons]; ring
    rw [hexp, List.sum_cons]
    linarith

theorem sum_le_mul_length (l : List ℚ) (m : ℚ) (h : ∀ x ∈ l, x ≤ m) :
    l.sum ≤ m * l.length := by
  induction l with
  | nil => simp
  | cons a t ih =>
    have ha := h a (List.mem_cons_self a t)
    have ht := ih (fun x hx => h x (List.mem_cons_of_mem a hx))
    have hexp : m * ((a :: t).length : ℚ) = m * (t.length : ℚ) + m := by
      push_cast [List.length_cons]; ring
    rw [hexp, List.sum_cons]
    linarith

theorem length_pos_q (l : List ℚ) (h : l ≠ []) : (0 : ℚ) < l.length := by
  exact_mod_cast List.length_pos.mpr h

theorem pyMin_le_mean (l : List ℚ) (h : l ≠ []) :
    pyMin l ≤ l.sum / (l.length : ℚ) := by
  rw [le_div_iff₀ (length_pos_q l h)]
  exact mul_length_le_sum l (pyMin l) (fun x hx => pyMin_le l x hx)

theorem mean_le_pyMax (l : List ℚ) (h : l ≠ []) :
    l.sum / (l.length : ℚ) ≤ pyMax l := by
  rw [div_le_iff₀ (length_pos_q l h)]
  exact sum_le_mul_length l (pyMax l) (fun x hx => le_pyMax l x hx)

theorem nonBlankRows_of_no_blank :
    ∀ rs : List (List String), [] ∉ rs → nonBlankRows rs = rs := by
  intro rs
  induction rs with
  | nil => intro h; rfl
  | cons r rest ih =>
    intro h
    have hr : r ≠ [] := by
      intro hr
      subst hr
      exact h (List.mem_cons_self [] rest)
    have hrest : [] ∉ rest := fun hm => h (List.mem_cons_of_mem r hm)
    simp only [nonBlankRows, if_neg hr, ih hrest]

theorem readRows_length (header : List String) :
    ∀ (rs : List (List String)) (ds : Dataset),
      readRows header rs = .ok ds → ds.length = (nonBlankRows rs).length := by
  intro rs
  induction rs with
  | nil => intro ds h; simp [readRows] at h; simp [← h, nonBlankRows]
  | cons r rest ih =>
    intro ds h
    by_cases hr0 : r = []
    · simp only [readRows, if_pos hr0] at h
      simp only [nonBlankRows, if_pos hr0]
      exact ih ds h
    · simp only [readRows, if_neg hr0] at h
      cases hr : readRow header r with
      | error e => rw [hr] at h; cases h
      | ok s =>
        rw [hr] at h
        cases hrs : readRows header rest with
        | error e => rw [hrs] at h; cases h
        | ok ds' =>
          rw [hrs] at h
          cases h
          simp [nonBlankRows, if_neg hr0, List.length_cons, ih ds' hrs]

theorem readRows_get (header : List String) :
    ∀ (rs : List (List String)) (ds : Dataset) (i : Nat) (row : List String),
      readRows header rs = .ok ds → (nonBlankRows rs).get? i = some row →
      ∃ s, ds.get? i = some s ∧ readRow header row = .ok s := by
  intro rs
  induction rs with
  | nil => intro ds i row _ hi; simp [nonBlankRows] at hi
  | cons r rest ih =>
    intro ds i row h hi
    by_cases hr0 : r = []
    · simp only [readRows, if_pos hr0] at h
      simp only [nonBlankRows, if_pos hr0] at hi
      exact ih ds i row h hi
    · simp only [readRows, if_neg hr0] at h
      simp only [nonBlankRows, if_neg hr0] at hi
      cases hr : readRow header r with
      | error e => rw [hr] at h; cases h
      | ok s =>
        rw [hr] at h
        cases hrs : readRows header rest with
        | error e => rw [hrs] at h; cases h
        | ok ds' =>
          rw [hrs] at h
          cases h
          cases i with
          | zero =>
            cases hi
            exact ⟨s, rfl, hr⟩
          | succ j =>
            exact ih ds' j row hrs hi

theorem readRows_append_error (header : List String) (e : PyError)
    (row : List String) (rest : List (List String)) (hrow0 : row ≠ []) :
    ∀ (pre : List (List String)) (ds : Dataset),
      readRows header pre = .ok ds → readRow header row = .error e →
      readRows header (pre ++ row :: rest) = .error e := by
  intro pre
  induction pre with
  | nil =>
    intro ds _ hrow
    simp [readRows, hrow0, hrow]
  | cons p ps ih =>
    intro ds h hrow
    by_cases hp0 : p = []
    · simp only [readRows, if_pos hp0] at h
      have hrec : readRows header (ps ++ row :: rest) = .error e :=
        ih ds h hrow
      simp [List.cons_append, readRows, if_pos hp0, hrec]
    · simp only [readRows, if_neg hp0] at h
      cases hp : readRow header p with
      | error e2 => rw [hp] at h; cases h
      | ok s =>
        rw [hp] at h
        cases hps : readRows header ps with
        | error e2 => rw [hps] at h; cases h
        | ok ds' =>
          have hrec : readRows header (ps ++ row :: rest) = .error e :=
            ih ds' hps hrow
          simp [List.cons_append, readRows, hp0, hp, hrec]

theorem series_bundle (l : List ℚ) (h : l ≠ []) :
    pyMin l ∈ l ∧ (∀ x ∈ l, pyMin l ≤ x) ∧
    pyMax l ∈ l ∧ (∀ x ∈ l, x ≤ pyMax l) :=
  ⟨pyMin_mem l h, fun x hx => pyMin_le l x hx,
   pyMax_mem l h, fun x hx => le_pyMax l x hx⟩

theorem pyMain_events_shape (argv : List String) (fs : String → Option CSVFile)
    (w : String → Bool) :
    (pyMain argv fs w).events = [] ∨
    (∃ p, (pyMain argv fs w).events = [Event.readF p]) ∨
    (∃ p q wb, (pyMain argv fs w).events = [Event.readF p, Event.writeF q wb]) := by
  unfold pyMain
  split
  · exact Or.inl rfl
  · dsimp only
    split
    · exact Or.inr (Or.inl ⟨_, rfl⟩)
    · split
      · exact Or.inr (Or.inl ⟨_, rfl⟩)
      · exact Or.inr (Or.inl ⟨_, rfl⟩)
      · exact Or.inr (Or.inl ⟨_, rfl⟩)
      · split
        · exact Or.inr (Or.inl ⟨_, rfl⟩)
        · split
          · exact Or.inr (Or.inl ⟨_, rfl⟩)
          · split
            · exact Or.inr (Or.inr ⟨_, _, _, rfl⟩)
            · exact Or.inr (Or.inr ⟨_, _, _, rfl⟩)

theorem pyMain_write_err (argv : List String) (fs : String → Option CSVFile)
    (w : String → Bool) :
    (∀ e ∈ (pyMain argv fs w).events, isWriteEvent e = false) ∨
    (pyMain argv fs w).err = none ∨
    (pyMain argv fs w).err = some .outputWrite := by
  unfold pyMain
  split
  · left; intro e he; cases he
  · dsimp only
    split
    · left; intro e he; simp at he; simp [he, isWriteEvent]
    · split
      · left; intro e he; simp at he; simp [he, isWriteEvent]
      · left; intro e he; simp at he; simp [he, isWriteEvent]
      · left; intro e he; simp at he; simp [he, isWriteEvent]
      · split
        · left; intro e he; simp at he; simp [he, isWriteEvent]
        · split
          · left; intro e he; simp at he; simp [he, isWriteEvent]
          · split
            · right; left; rfl
            · right; right; rfl

/-! ### The claims -/

/-- Claim C1: for every non-empty Dataset, `calculate_statistics` returns
`total_samples` equal to the number of samples and, for each of the three
numeric series, mean = sum/count, min = the series minimum (a member that
bounds the series from below) and max = the series maximum; in particular on
the two-row example it returns exactly the statistics of `exStats`. -/
theorem claim_C1 :
    (∀ data : Dataset, data ≠ [] →
      ∃ s, calculate_statistics data = some s ∧
        s.total_samples = data.length ∧
        (s.avg_response_time_mean
            = (data.map (·.avg_response_time)).sum / (data.length : ℚ) ∧
         s.avg_response_time_min ∈ data.map (·.avg_response_time) ∧
         (∀ x ∈ data.map (·.avg_response_time), s.avg_response_time_min ≤ x) ∧
         s.avg_response_time_max ∈ data.map (·.avg_response_time) ∧
         (∀ x ∈ data.map (·.avg_response_time), x ≤ s.avg_response_time_max)) ∧
        (s.p95_response_time_mean
            = (data.map (·.p95_response_time)).sum / (data.length : ℚ) ∧
         s.p95_response_time_min ∈ data.map (·.p95_response_time) ∧
         (∀ x ∈ data.map (·.p95_response_time), s.p95_response_time_min ≤ x) ∧
         s.p95_response_time_max ∈ data.map (·.p95_response_time) ∧
         (∀ x ∈ data.map (·.p95_response_time), x ≤ s.p95_response_time_max)) ∧
        (s.rps_mean
            = (data.map (·.requests_per_second)).sum / (data.length : ℚ) ∧
         s.rps_min ∈ data.map (·.requests_per_second) ∧
         (∀ x ∈ data.map (·.requests_per_second), s.rps_min ≤ x) ∧
         s.rps_max ∈ data.map (·.requests_per_second) ∧
         (∀ x ∈ data.map (·.requests_per_second), x ≤ s.rps_max))) ∧
    calculate_statistics exDataRows = some exStats := by
  constructor
  · intro data hd
    obtain ⟨a, t, rfl⟩ : ∃ a t, data = a :: t := by
      cases data with
      | nil => exact absurd rfl hd
      | cons a t => exact ⟨a, t, rfl⟩
    have hne : ∀ f : Sample → ℚ, (a :: t).map f ≠ [] := by
      intro f; simp
    refine ⟨_, rfl, rfl, ?_, ?_, ?_⟩ <;>
      refine ⟨by simp only [List.length_map], ?_⟩
    · obtain ⟨h1, h2, h3, h4⟩ := series_bundle _ (hne (·.avg_response_time))
      exact ⟨h1, h2, h3, h4⟩
    · obtain ⟨h1, h2, h3, h4⟩ := series_bundle _ (hne (·.p95_response_time))
      exact ⟨h1, h2, h3, h4⟩
    · obtain ⟨h1, h2, h3, h4⟩ := series_bundle _ (hne (·.requests_per_second))
      exact ⟨h1, h2, h3, h4⟩
  · simp [calculate_statistics, exDataRows, exStats, pyMin, pyMax,
      Statistics.mk.injEq]
    norm_num [min_def, max_def]

/-- Claim C1 witness: the universal part instantiated on the two-row
example (the hypothesis `exDataRows ≠ []` holds there). -/
theorem claim_C1_witness : exStats.total_samples = exDataRows.length := by
  obtain ⟨s, h1, h2, -⟩ := claim_C1.1 exDataRows (by simp [exDataRows])
  have h3 := claim_C1.2
  rw [h1] at h3
  exact Option.some.inj h3 ▸ h2

/-- Claim C4: for every non-empty Dataset the statistics satisfy
min ≤ mean ≤ max on each of the three series, and on a one-sample Dataset
min = mean = max on each series. -/
theorem claim_C4 : ∀ data : Dataset, data ≠ [] →
    ∃ s, calculate_statistics data = some s ∧
      (s.avg_response_time_min ≤ s.avg_response_time_mean ∧
       s.avg_response_time_mean ≤ s.avg_response_time_max) ∧
      (s.p95_response_time_min ≤ s.p95_response_time_mean ∧
       s.p95_response_time_mean ≤ s.p95_response_time_max) ∧
      (s.rps_min ≤ s.rps_mean ∧ s.rps_mean ≤ s.rps_max) ∧
      (data.length = 1 →
        (s.avg_response_time_min = s.avg_response_time_mean ∧
         s.avg_response_time_mean = s.avg_response_time_max) ∧
        (s.p95_response_time_min = s.p95_response_time_mean ∧
         s.p95_response_time_mean = s.p95_response_time_max) ∧
        (s.rps_min = s.rps_mean ∧ s.rps_mean = s.rps_max)) := by
  intro data hd
  obtain ⟨a, t, rfl⟩ : ∃ a t, data = a :: t := by
    cases data with
    | nil => exact absurd rfl hd
    | cons a t => exact ⟨a, t, rfl⟩
  have hne : ∀ f : Sample → ℚ, (a :: t).map f ≠ [] := by
    intro f; simp
  refine ⟨_, rfl, ?_, ?_, ?_, ?_⟩
  · exact ⟨pyMin_le_mean _ (hne (·.avg_response_time)),
           mean_le_pyMax _ (hne (·.avg_response_time))⟩
  · exact ⟨pyMin_le_mean _ (hne (·.p95_response_time)),
           mean_le_pyMax _ (hne (·.p95_response_time))⟩
  · exact ⟨pyMin_le_mean _ (hne (·.requests_per_second)),
           mean_le_pyMax _ (hne (·.requests_per_second))⟩
  · intro h1
    have ht : t = [] := by
      cases t with
      | nil => rfl
      | cons b u => simp at h1
    subst ht
    refine ⟨⟨?_, ?_⟩, ⟨?_, ?_⟩, ⟨?_, ?_⟩⟩ <;> simp [pyMin, pyMax]

/-- Claim C4 witness: the hypothesis holds on the one-sample Dataset and the
statistics exist there. -/
theorem claim_C4_witness : (calculate_statistics exDataOne).isSome = true := by
  obtain ⟨s, h1, -⟩ := claim_C4 exDataOne (by simp [exDataOne])
  rw [h1]
  rfl

/-- Claim C3: a successful read yields exactly one Sample per CSV data row —
the rows `csv.DictReader` delivers, that is the non-blank field rows — in
file order, each parsed from its own row; for a CSV without blank lines this
is exactly one Sample per raw row at the same index.  And the Data sheet
holds exactly the rows of the dataset at full precision, so reading it back
reproduces the Dataset. -/
theorem claim_C3 :
    (∀ (csv : CSVFile) (ds : Dataset), read_csv_data csv = .ok ds →
       ds.length = (nonBlankRows csv.rows).length ∧
       (∀ (i : Nat) (row : List String),
          (nonBlankRows csv.rows).get? i = some row →
          ∃ s, ds.get? i = some s ∧ readRow csv.header row = .ok s) ∧
       ([] ∉ csv.rows →
        ds.length = csv.rows.length ∧
        ∀ (i : Nat) (row : List String), csv.rows.get? i = some row →
          ∃ s, ds.get? i = some s ∧ readRow csv.header row = .ok s)) ∧
    (∀ (data : Dataset) (stats : Statistics),
       (create_excel_workbook data stats).dataRows =
         data.map (fun r => (r.timestamp, r.avg_response_time,
           r.p95_response_time, r.requests_per_second)) ∧
       readBackDataSheet (create_excel_workbook data stats).dataRows = data) := by
  constructor
  · intro csv ds h
    refine ⟨readRows_length csv.header csv.rows ds h,
           fun i row hi => readRows_get csv.header csv.rows ds i row h hi,
           ?_⟩
    intro hnb
    have hnbr := nonBlankRows_of_no_blank csv.rows hnb
    constructor
    · rw [readRows_length csv.header csv.rows ds h, hnbr]
    · intro i row hi
      exact readRows_get csv.header csv.rows ds i row h (by rw [hnbr]; exact hi)
  · intro data stats
    refine ⟨rfl, ?_⟩
    show readBackDataSheet (data.map _) = data
    induction data with
    | nil => rfl
    | cons a t ih =>
      simp only [List.map_cons, readBackDataSheet] at ih ⊢
      rw [ih]

/-- Claim C3 witness: the reader hypothesis discharged on a concrete CSV
(header only, zero rows), plus the round trip on the example Dataset. -/
theorem claim_C3_witness :
    ([] : Dataset).length = csvHdrOnly.rows.length ∧
    readBackDataSheet (create_excel_workbook exDataRows exStats).dataRows
      = exDataRows := by
  exact ⟨((claim_C3.1 csvHdrOnly [] rfl).2.2 (by decide)).1,
         (claim_C3.2 exDataRows exStats).2⟩

/-- Claim C2 counterexample: the header lacks `timestamp`, yet the run does
not fail with the MissingColumn error — with zero data rows the dict lookup
never happens, and the run ends with the EmptyDataset error instead. -/
theorem claim_C2_counterexample :
    headerIdx csvNoTsNoRows.header "timestamp" = none ∧
    (pyMain ["prog", "in.csv", "out.xlsx"] (fsWith csvNoTsNoRows)
        alwaysWritable).err = some ErrKind.emptyDataset ∧
    (pyMain ["prog", "in.csv", "out.xlsx"] (fsWith csvNoTsNoRows)
        alwaysWritable).err ≠ some (ErrKind.missingColumn "timestamp") ∧
    missingColumnMsg "timestamp" ∉
      (pyMain ["prog", "in.csv", "out.xlsx"] (fsWith csvNoTsNoRows)
        alwaysWritable).printed ∧
    (pyMain ["prog", "in.csv", "out.xlsx"] (fsWith csvNoTsNoRows)
        alwaysWritable).outcome = Outcome.exited 1 := by
  decide

/-- Claim C2 as amended: for every CSV with at least one data row whose
header lacks required column `m` while the other required columns are
present, and where the numeric fields of the first data row other than the
one for `m` are present and parse — fields as the `DictReader` row dict
holds them, i.e. at the last occurrence of a duplicated header name — the
run fails with MissingColumn naming exactly `m`, prints the expected-column
list, exits non-zero, and writes nothing. -/
theorem claim_C2 (prog inp outp : String) (fs : String → Option CSVFile)
    (w : String → Bool) (csv : CSVFile) (m : String)
    (row : List String) (rest : List (List String))
    (hfs : fs inp = some csv) (hrows : csv.rows = row :: rest)
    (hm : m ∈ requiredColumns)
    (hmiss : headerIdx csv.header m = none)
    (hpresent : ∀ c ∈ requiredColumns, c ≠ m → headerIdx csv.header c ≠ none)
    (hparse : ∀ c ∈ numericColumns, c ≠ m → fieldParses csv.header row c) :
    (pyMain [prog, inp, outp] fs w).err = some (.missingColumn m) ∧
    missingColumnMsg m ∈ (pyMain [prog, inp, outp] fs w).printed ∧
    expectedColumnsMsg ∈ (pyMain [prog, inp, outp] fs w).printed ∧
    (pyMain [prog, inp, outp] fs w).outcome = .exited 1 ∧
    ∀ e ∈ (pyMain [prog, inp, outp] fs w).events, isWriteEvent e = false := by
  have hrr : readRow csv.header row = .error (.keyError m) := by
    simp only [requiredColumns, List.mem_cons, List.not_mem_nil, or_false] at hm
    rcases hm with rfl | rfl | rfl | rfl
    · simp [readRow, dictGet, hmiss]
    · obtain ⟨it, hts⟩ := Option.ne_none_iff_exists'.mp
        (hpresent "timestamp" (by simp [requiredColumns]) (by decide))
      simp [readRow, dictGet, hts, hmiss, toFloat]
    · obtain ⟨it, hts⟩ := Option.ne_none_iff_exists'.mp
        (hpresent "timestamp" (by simp [requiredColumns]) (by decide))
      obtain ⟨ia, sa, qa, hia, hsa, hqa⟩ :=
        hparse "avg_response_time" (by simp [numericColumns]) (by decide)
      simp [readRow, dictGet, hts, hia, hsa, hqa, hmiss, toFloat]
    · obtain ⟨it, hts⟩ := Option.ne_none_iff_exists'.mp
        (hpresent "timestamp" (by simp [requiredColumns]) (by decide))
      obtain ⟨ia, sa, qa, hia, hsa, hqa⟩ :=
        hparse "avg_response_time" (by simp [numericColumns]) (by decide)
      obtain ⟨ip, sp, qp, hip, hsp, hqp⟩ :=
        hparse "p95_response_time" (by simp [numericColumns]) (by decide)
      simp [readRow, dictGet, hts, hia, hsa, hqa, hip, hsp, hqp, hmiss, toFloat]
  have hrow0 : row ≠ [] := by
    have hget : ∃ (i : Nat) (s : String), row[i]? = some s := by
      by_cases hma : m = "avg_response_time"
      · obtain ⟨ip, sp, qp, hip, hsp, hqp⟩ :=
          hparse "p95_response_time" (by simp [numericColumns])
            (by rw [hma]; decide)
        exact ⟨ip, sp, hsp⟩
      · obtain ⟨ia, sa, qa, hia, hsa, hqa⟩ :=
          hparse "avg_response_time" (by simp [numericColumns])
            (fun hc => hma hc.symm)
        exact ⟨ia, sa, hsa⟩
    obtain ⟨i2, s2, hs2⟩ := hget
    intro hr
    subst hr
    simp at hs2
  have hread : read_csv_data csv = .error (.keyError m) := by
    simp [read_csv_data, hrows, readRows, hrow0, hrr]
  simp [pyMain, List.getD, hfs, hread, isWriteEvent]

/-- Claim C2 witness: the amended statement instantiated on a CSV whose
header lacks exactly `requests_per_second` and whose one data row parses. -/
theorem claim_C2_witness :
    (pyMain ["prog", "in.csv", "out.xlsx"] (fsWith csvNoRps)
        alwaysWritable).err = some (ErrKind.missingColumn "requests_per_second") ∧
    missingColumnMsg "requests_per_second" ∈
      (pyMain ["prog", "in.csv", "out.xlsx"] (fsWith csvNoRps)
        alwaysWritable).printed ∧
    expectedColumnsMsg ∈
      (pyMain ["prog", "in.csv", "out.xlsx"] (fsWith csvNoRps)
        alwaysWritable).printed ∧
    (pyMain ["prog", "in.csv", "out.xlsx"] (fsWith csvNoRps)
        alwaysWritable).outcome = Outcome.exited 1 := by
  have h := claim_C2 "prog" "in.csv" "out.xlsx" (fsWith csvNoRps)
    alwaysWritable csvNoRps "requests_per_second" ["t1", "1.5", "2.5"] []
    rfl rfl (by decide) rfl (by decide)
    (by
      intro c hc hne
      simp only [numericColumns, List.mem_cons, List.not_mem_nil,
        or_false] at hc
      rcases hc with rfl | rfl | rfl
      · exact ⟨1, "1.5", _, rfl, rfl, rfl⟩
      · exact ⟨2, "2.5", _, rfl, rfl, rfl⟩
      · exact absurd rfl hne)
  exact ⟨h.1, h.2.1, h.2.2.1, h.2.2.2.1⟩

/-- Claim C5: on an empty Dataset `calculate_statistics` returns the
absent result, and a CSV that parses with zero data rows makes the run end
with the EmptyDataset error, exit non-zero, and write nothing. -/
theorem claim_C5 :
    calculate_statistics [] = none ∧
    ∀ (prog inp outp : String) (fs : String → Option CSVFile)
      (w : String → Bool) (csv : CSVFile),
      fs inp = some csv → csv.rows = [] →
      (pyMain [prog, inp, outp] fs w).err = some .emptyDataset ∧
      (pyMain [prog, inp, outp] fs w).outcome = .exited 1 ∧
      emptyDataMsg ∈ (pyMain [prog, inp, outp] fs w).printed ∧
      ∀ e ∈ (pyMain [prog, inp, outp] fs w).events, isWriteEvent e = false := by
  refine ⟨rfl, ?_⟩
  intro prog inp outp fs w csv hfs hrows
  have hread : read_csv_data csv = .ok [] := by
    simp [read_csv_data, hrows, readRows]
  simp [pyMain, List.getD, hfs, hread, isWriteEvent]

/-- Claim C5 witness: the pipeline part instantiated on the header-only
CSV. -/
theorem claim_C5_witness :
    (pyMain ["prog", "in.csv", "out.xlsx"] (fsWith csvHdrOnly)
        alwaysWritable).err = some ErrKind.emptyDataset ∧
    (pyMain ["prog", "in.csv", "out.xlsx"] (fsWith csvHdrOnly)
        alwaysWritable).outcome = Outcome.exited 1 ∧
    emptyDataMsg ∈ (pyMain ["prog", "in.csv", "out.xlsx"] (fsWith csvHdrOnly)
        alwaysWritable).printed := by
  have h := claim_C5.2 "prog" "in.csv" "out.xlsx" (fsWith csvHdrOnly)
    alwaysWritable csvHdrOnly rfl rfl
  exact ⟨h.1, h.2.1, h.2.2.1⟩

/-- Claim C6: the Statistics sheet has header Metric/Value and its rows are,
in this fixed order: total samples; blank; the "Average Response Time"
section label (empty value) and its Mean/Min/Max rounded to 4 decimals;
blank; the "P95 Response Time" section likewise; blank; the
"Requests per Second" section likewise. -/
theorem claim_C6 : ∀ (data : Dataset) (stats : Statistics),
    (create_excel_workbook data stats).statsHeader = ["Metric", "Value"] ∧
    (create_excel_workbook data stats).statsRows =
      [("Total Samples", Cell.int stats.total_samples),
       ("", Cell.str ""),
       ("Average Response Time (s)", Cell.str ""),
       ("  Mean", Cell.num (round4 stats.avg_response_time_mean)),
       ("  Min", Cell.num (round4 stats.avg_response_time_min)),
       ("  Max", Cell.num (round4 stats.avg_response_time_max)),
       ("", Cell.str ""),
       ("P95 Response Time (s)", Cell.str ""),
       ("  Mean", Cell.num (round4 stats.p95_response_time_mean)),
       ("  Min", Cell.num (round4 stats.p95_response_time_min)),
       ("  Max", Cell.num (round4 stats.p95_response_time_max)),
       ("", Cell.str ""),
       ("Requests per Second", Cell.str ""),
       ("  Mean", Cell.num (round4 stats.rps_mean)),
       ("  Min", Cell.num (round4 stats.rps_min)),
       ("  Max", Cell.num (round4 stats.rps_max))] := by
  intro data stats
  exact ⟨rfl, rfl⟩

/-- Claim C7: output-path normalization leaves the path unchanged or appends
the report extension `.xlsx`; in either case the chosen path is kept as a
prefix, so its directory and base name are not altered. -/
theorem claim_C7 : ∀ p : String,
    normalizeOutput p = p ∨ normalizeOutput p = p ++ ".xlsx" := by
  intro p
  unfold normalizeOutput
  split
  · exact Or.inl rfl
  · exact Or.inr rfl

/-- Claim C8: in every run the write to the destination is the last
filesystem action, and a run that fails with InputNotFound, MissingColumn,
InvalidNumericValue or EmptyDataset performs no write at all. -/
theorem claim_C8 : ∀ (argv : List String) (fs : String → Option CSVFile)
    (w : String → Bool),
    (∀ (i : Nat) (e : Event), (pyMain argv fs w).events.get? i = some e →
       isWriteEvent e = true → i + 1 = (pyMain argv fs w).events.length) ∧
    (((pyMain argv fs w).err = some .inputNotFound ∨
      (∃ c, (pyMain argv fs w).err = some (.missingColumn c)) ∨
      (∃ raw, (pyMain argv fs w).err = some (.invalidNumeric raw)) ∨
      (pyMain argv fs w).err = some .emptyDataset) →
      ∀ e ∈ (pyMain argv fs w).events, isWriteEvent e = false) := by
  intro argv fs w
  constructor
  · intro i e hget hw
    rcases pyMain_events_shape argv fs w with h | ⟨p, h⟩ | ⟨p, q, wb, h⟩ <;>
      rw [h] at hget ⊢
    · cases i <;> simp at hget
    · cases i with
      | zero =>
        simp at hget
        rw [← hget] at hw
        simp [isWriteEvent] at hw
      | succ j => simp at hget
    · cases i with
      | zero =>
        simp at hget
        rw [← hget] at hw
        simp [isWriteEvent] at hw
      | succ j =>
        cases j with
        | zero => rfl
        | succ k => simp at hget
  · intro herr e he
    rcases pyMain_write_err argv fs w with h | h | h
    · exact h e he
    · rcases herr with h1 | ⟨c, h1⟩ | ⟨raw, h1⟩ | h1 <;> simp [h] at h1
    · rcases herr with h1 | ⟨c, h1⟩ | ⟨raw, h1⟩ | h1 <;> simp [h] at h1

/-- Claim C8 witness: the no-write conclusion instantiated on a run that
fails with InputNotFound. -/
theorem claim_C8_witness : isWriteEvent (Event.readF "in.csv") = false := by
  have h := claim_C8 ["prog", "in.csv", "out.xlsx"] (fun _ => none)
    alwaysWritable
  exact h.2 (Or.inl (by decide)) (Event.readF "in.csv") (by decide)

/-- Claim C9: with any argument count other than exactly two positionals
(script name plus two, so `argv.length ≠ 3`) the run prints exactly the
usage text — which includes the expected CSV column list — exits non-zero,
and touches no file. -/
theorem claim_C9 : ∀ (argv : List String) (fs : String → Option CSVFile)
    (w : String → Bool), argv.length ≠ 3 →
    (pyMain argv fs w).printed = usagePrinted ∧
    "timestamp,avg_response_time,p95_response_time,requests_per_second"
      ∈ (pyMain argv fs w).printed ∧
    (pyMain argv fs w).events = [] ∧
    (pyMain argv fs w).outcome = .exited 1 ∧
    (pyMain argv fs w).err = some .usage := by
  intro argv fs w h
  have hp : pyMain argv fs w =
      { printed := usagePrinted, events := [], outcome := .exited 1,
        err := some .usage } := by
    unfold pyMain
    rw [if_pos h]
  rw [hp]
  refine ⟨rfl, ?_, rfl, rfl, rfl⟩
  simp [usagePrinted]

/-- Claim C9 witness: one positional argument (argv length 1). -/
theorem claim_C9_witness :
    (pyMain ["prog"] (fsWith csvHdrOnly) alwaysWritable).printed
      = usagePrinted ∧
    (pyMain ["prog"] (fsWith csvHdrOnly) alwaysWritable).events = [] ∧
    (pyMain ["prog"] (fsWith csvHdrOnly) alwaysWritable).outcome
      = Outcome.exited 1 := by
  have h := claim_C9 ["prog"] (fsWith csvHdrOnly) alwaysWritable (by decide)
  exact ⟨h.1, h.2.2.1, h.2.2.2.1⟩

/-- Claim C10: when the header has all four required columns but a non-blank
data row is too short to cover a numeric column (its earlier numeric fields,
if any, being present and parseable), the missing field is read as `None`,
`float(None)` raises `TypeError`, no Reader handler catches it, and the
program crashes without printing any of the fatal error messages and without
writing the report.  (A completely blank row is excluded: `csv.DictReader`
skips it before the row dict is ever built.) -/
theorem claim_C10 :
    (∀ (header row : List String), row ≠ [] →
       (∀ c ∈ requiredColumns, headerIdx header c ≠ none) →
       (missingAt header row "avg_response_time" ∨
        (fieldParses header row "avg_response_time" ∧
         missingAt header row "p95_response_time") ∨
        (fieldParses header row "avg_response_time" ∧
         fieldParses header row "p95_response_time" ∧
         missingAt header row "requests_per_second")) →
       readRow header row = .error .typeError) ∧
    (∀ (prog inp outp : String) (fs : String → Option CSVFile)
       (w : String → Bool) (csv : CSVFile) (pre : List (List String))
       (row : List String) (rest : List (List String)) (ds : Dataset),
       fs inp = some csv → csv.rows = pre ++ row :: rest → row ≠ [] →
       readRows csv.header pre = .ok ds →
       readRow csv.header row = .error .typeError →
       (pyMain [prog, inp, outp] fs w).outcome = .crashed .typeError ∧
       (pyMain [prog, inp, outp] fs w).err = some (.pyCrash .typeError) ∧
       (pyMain [prog, inp, outp] fs w).printed
         = ["Reading data from: " ++ inp] ∧
       ∀ e ∈ (pyMain [prog, inp, outp] fs w).events,
         isWriteEvent e = false) := by
  constructor
  · intro header row _hrow0 hall hcase
    obtain ⟨it, hts⟩ := Option.ne_none_iff_exists'.mp
      (hall "timestamp" (by simp [requiredColumns]))
    rcases hcase with ⟨ia, hia, hga⟩ | ⟨⟨ia, sa, qa, hia, hsa, hqa⟩, ip, hip, hgp⟩ |
      ⟨⟨ia, sa, qa, hia, hsa, hqa⟩, ⟨ip, sp, qp, hip, hsp, hqp⟩, ir, hir, hgr⟩
    · simp [readRow, dictGet, hts, hia, hga, toFloat]
    · simp [readRow, dictGet, hts, hia, hsa, hqa, hip, hgp, toFloat]
    · simp [readRow, dictGet, hts, hia, hsa, hqa, hip, hsp, hqp, hir, hgr,
        toFloat]
  · intro prog inp outp fs w csv pre row rest ds hfs hrows hrow0 hpre hrow
    have hread : read_csv_data csv = .error .typeError := by
      rw [read_csv_data, hrows]
      exact readRows_append_error csv.header .typeError row rest hrow0 pre ds
        hpre hrow
    simp [pyMain, List.getD, hfs, hread, isWriteEvent]

/-- Claim C10 witness: a short data row (timestamp only) under the full
header makes the row read raise `TypeError` and the run crash. -/
theorem claim_C10_witness :
    readRow hdr4 ["t1"] = Except.error PyError.typeError ∧
    (pyMain ["prog", "in.csv", "out.xlsx"] (fsWith csvShortRow)
        alwaysWritable).outcome = Outcome.crashed PyError.typeError ∧
    (pyMain ["prog", "in.csv", "out.xlsx"] (fsWith csvShortRow)
        alwaysWritable).printed = ["Reading data from: " ++ "in.csv"] := by
  have hr : readRow hdr4 ["t1"] = Except.error PyError.typeError :=
    claim_C10.1 hdr4 ["t1"] (by decide) (by decide) (Or.inl ⟨1, rfl, rfl⟩)
  have h := claim_C10.2 "prog" "in.csv" "out.xlsx" (fsWith csvShortRow)
    alwaysWritable csvShortRow [] ["t1"] [] [] rfl rfl (by decide) rfl hr
  exact ⟨hr, h.1, h.2.2.1⟩

end ProcessResults
